import Mathlib

/-!
Verification of the `useAuth` React hook wrapper and its Firebase bootstrap.

The repository holds two source files: `src/config/firebase.ts` (provider
bootstrap with the emulator toggle `withAuthEmulator`) and
`src/pages/auth/test/useAuth.test.tsx` (test suite, including the harness
helper `clearAllUsers`). The hook implementation `src/pages/auth/hooks/useAuth`
itself is referenced by the tests but absent from the sources, so the
provider-facing operations (`register`, `signIn`, `signOut`, `changePassword`)
and the hook's mirrored auth state are modelled from the spec, as noted on
each definition. `withAuthEmulator` and `clearAllUsers` are translated
directly from the source.
-/

namespace UseAuth

/-- Modelled from the spec: errors "originate from and are typed by the
external provider (a code + message pair)" and callers catch "by inspecting
an error code field" (spec §7, §4.2). Only the code field is ever inspected. -/
structure FirebaseError where
  code : String
  deriving DecidableEq, Repr

/-- Modelled from the spec: an account held by the external identity provider
(the provider's server-side store is out of scope of the sources); it pairs
the registered email with its current password credential. -/
structure Account where
  email : String
  password : String
  deriving DecidableEq, Repr

/-- Modelled from the spec: "User: opaque record supplied by the provider
(email, identifier, metadata)" (spec §3); only the email is inspected by the
tests, so the record carries the email. -/
structure AuthUser where
  email : String
  deriving DecidableEq, Repr

/-- Modelled from the spec: the provider's session state — the registered
accounts and the current session (the email of the signed-in user, if any). -/
structure AuthState where
  accounts : List Account
  current : Option String
  deriving DecidableEq, Repr

/-- The provider state before any operation: no accounts, signed out. -/
def initAuthState : AuthState := ⟨[], none⟩

/-- Look up the account registered under `email`, if any. -/
def findAccount (st : AuthState) (email : String) : Option Account :=
  st.accounts.find? (fun a => a.email == email)

/-- The provider's current user: `none` when signed out, otherwise the opaque
user record for the session's email. -/
def providerUser (st : AuthState) : Option AuthUser :=
  st.current.map AuthUser.mk

/-- Modelled from the spec: `register(email, password)` "creates account;
fails on empty email, empty/invalid password, or duplicate email" (spec §4.2),
with the provider error codes observed by the tests: `auth/missing-email` for
an empty email, `auth/internal-error` for an empty password,
`auth/email-already-in-use` for a duplicate; the checks are applied in the
order the spec lists the failure causes. On success the provider signs the
fresh account in. -/
def register (email password : String) (st : AuthState) :
    Except FirebaseError AuthState :=
  if email = "" then .error ⟨"auth/missing-email"⟩
  else if password = "" then .error ⟨"auth/internal-error"⟩
  else match findAccount st email with
    | some _ => .error ⟨"auth/email-already-in-use"⟩
    | none => .ok ⟨⟨email, password⟩ :: st.accounts, some email⟩

/-- Modelled from the spec: `signIn(email, password)` "authenticates; fails on
empty email or wrong credentials" (spec §4.2), with the provider error codes
observed by the tests: `auth/missing-email` for an empty email,
`auth/wrong-password` for a known email with the wrong password, and the
provider's unknown-account code for an unregistered email. -/
def signIn (email password : String) (st : AuthState) :
    Except FirebaseError AuthState :=
  if email = "" then .error ⟨"auth/missing-email"⟩
  else match findAccount st email with
    | none => .error ⟨"auth/user-not-found"⟩
    | some a =>
      if a.password = password then .ok { st with current := some email }
      else .error ⟨"auth/wrong-password"⟩

/-- Modelled from the spec: `signOut()` "clears session" (spec §4.2); it never
fails and leaves the accounts untouched. -/
def signOut (st : AuthState) : Except FirebaseError AuthState :=
  .ok { st with current := none }

/-- Modelled from the spec: `changePassword(user, newPassword)` "updates
credential for the current session" (spec §4.2); an empty replacement
credential is rejected by the provider like an empty registration password,
and an unknown account is rejected with the provider's unknown-account code. -/
def changePassword (u : AuthUser) (newPassword : String) (st : AuthState) :
    Except FirebaseError AuthState :=
  if newPassword = "" then .error ⟨"auth/internal-error"⟩
  else match findAccount st u.email with
    | none => .error ⟨"auth/user-not-found"⟩
    | some _ =>
      .ok { st with
            accounts := st.accounts.map
              (fun a => if a.email == u.email then ⟨a.email, newPassword⟩ else a) }

/-- Modelled from the spec: a "session expiry signaled by the provider"
(spec §3) clears the provider's current session. -/
def expireSession (st : AuthState) : AuthState :=
  { st with current := none }

/-- The operations that can reach the provider state: the hook's four mutating
calls plus the provider-signaled session expiry. -/
inductive Op where
  | register (email password : String)
  | signIn (email password : String)
  | signOut
  | changePassword (u : AuthUser) (newPassword : String)
  | expire
  deriving DecidableEq, Repr

/-- Run one operation against the provider state, returning the provider's
outcome. -/
def applyOp (op : Op) (st : AuthState) : Except FirebaseError AuthState :=
  match op with
  | .register e p => register e p st
  | .signIn e p => signIn e p st
  | .signOut => signOut st
  | .changePassword u p => changePassword u p st
  | .expire => .ok (expireSession st)

/-- Modelled from the spec: the combined state of the system — the provider's
state and the hook's exposed `user`, the "nullable current-User, sourced from
the provider's live subscription" (spec §3). -/
structure SystemState where
  provider : AuthState
  hookUser : Option AuthUser
  deriving DecidableEq, Repr

/-- The system state of a newly mounted hook with no session. -/
def initSystem : SystemState := ⟨initAuthState, none⟩

/-- Modelled from the spec: one hook operation. The mutating call runs against
the provider and "lets it throw on failure" (spec §2); afterwards the hook's
exposed `user` "reflects the provider's subsequent state-change notification"
(spec §4.2), i.e. mirrors the provider's current user, the provider state
being unchanged when the call threw. -/
def stepSystem (sys : SystemState) (op : Op) : SystemState :=
  match applyOp op sys.provider with
  | .ok st' => ⟨st', providerUser st'⟩
  | .error _ => ⟨sys.provider, providerUser sys.provider⟩

/-- The system states reachable from a newly mounted hook by any sequence of
operations. -/
inductive Reachable : SystemState → Prop where
  | init : Reachable initSystem
  | step {sys : SystemState} (op : Op) : Reachable sys → Reachable (stepSystem sys op)

/-- Accounts are well formed: every registered account has a non-empty email.
This is an invariant of reachable provider states. -/
def goodAccounts (st : AuthState) : Prop :=
  ∀ a ∈ st.accounts, a.email ≠ ""

/-- A concrete reachable system state with one registered, signed-in account,
used to instantiate the theorems below. -/
def demoSystem : SystemState :=
  stepSystem initSystem (Op.register "user@example.com" "pw1")

end UseAuth

namespace FirebaseConfig

/-- Translated from `src/config/firebase.ts`: `withAuthEmulator` lowercases
the environment flag `REACT_APP_USE_EMULATOR` (when present) and reports
whether it is defined and equals the exact string `true`. -/
def withAuthEmulator (env : Option String) : Bool :=
  match env.map String.toLower with
  | none => false
  | some e => e == "true"

/-- Translated from `src/config/firebase.ts`: at bootstrap the auth client is
connected to the local emulator endpoint exactly when `withAuthEmulator`
holds; otherwise it keeps targeting production (`none`). -/
def authEmulatorEndpoint (env : Option String) : Option String :=
  if withAuthEmulator env then some "http://localhost:9099" else none

end FirebaseConfig

namespace TestHarness

/-- An HTTP request as issued by the test harness: url and method. -/
structure HttpRequest where
  url : String
  method : String
  deriving DecidableEq, Repr

/-- Translated from `src/pages/auth/test/useAuth.test.tsx`: `clearAllUsers`
reads `REACT_APP_PROJECT_ID`; when it is falsy (unset or the empty string) it
throws before issuing any request, otherwise it issues a single DELETE to the
emulator's accounts endpoint for that project. The result is the list of HTTP
requests issued. -/
def clearAllUsers (projectId : Option String) : Except String (List HttpRequest) :=
  match projectId with
  | none => .error "env var REACT_APP_PROJECT_ID not found in test"
  | some pid =>
    if pid = "" then .error "env var REACT_APP_PROJECT_ID not found in test"
    else .ok [⟨"http://localhost:9099/emulator/v1/projects/" ++ pid ++ "/accounts", "DELETE"⟩]

end TestHarness

namespace UseAuth

theorem findAccount_email {st : AuthState} {e : String} {a : Account}
    (h : findAccount st e = some a) : a.email = e := by
  unfold findAccount at h
  have h2 := List.find?_some h
  exact eq_of_beq h2

theorem findAccount_mem {st : AuthState} {e : String} {a : Account}
    (h : findAccount st e = some a) : a ∈ st.accounts :=
  List.mem_of_find?_eq_some h

theorem find_update (l : List Account) (e np : String) :
    (l.map (fun a => if a.email == e then Account.mk a.email np else a)).find?
        (fun a => a.email == e)
      = (l.find? (fun a => a.email == e)).map (fun a => Account.mk a.email np) := by
  induction l with
  | nil => rfl
  | cons a l ih =>
    cases h : (a.email == e) with
    | true => simp [List.find?, h]
    | false => simpa [List.find?, h] using ih

theorem findAccount_update (st : AuthState) (e np : String) :
    findAccount
      { st with
        accounts := st.accounts.map
          (fun a => if a.email == e then Account.mk a.email np else a) } e
      = (findAccount st e).map (fun a => Account.mk a.email np) :=
  find_update st.accounts e np

theorem stepSystem_mirror (sys : SystemState) (op : Op) :
    (stepSystem sys op).hookUser = providerUser (stepSystem sys op).provider := by
  unfold stepSystem
  cases h : applyOp op sys.provider <;> rfl

theorem reachable_mirror {sys : SystemState} (h : Reachable sys) :
    sys.hookUser = providerUser sys.provider := by
  induction h with
  | init => rfl
  | step op hr ih => exact stepSystem_mirror _ _

theorem providerUser_eq_none {st : AuthState} :
    providerUser st = none ↔ st.current = none := by
  simp [providerUser]

theorem register_ok_current {e p : String} {st st' : AuthState}
    (h : register e p st = Except.ok st') : st'.current = some e := by
  by_cases he : e = ""
  · simp [register, he] at h
  · by_cases hp : p = ""
    · simp [register, he, hp] at h
    · cases hf : findAccount st e with
      | some a => simp [register, he, hp, hf] at h
      | none =>
        simp [register, he, hp, hf] at h
        rw [← h]

theorem signIn_ok_current {e p : String} {st st' : AuthState}
    (h : signIn e p st = Except.ok st') : st'.current = some e := by
  by_cases he : e = ""
  · simp [signIn, he] at h
  · cases hf : findAccount st e with
    | none => simp [signIn, he, hf] at h
    | some a =>
      by_cases hpw : a.password = p
      · simp [signIn, he, hf, hpw] at h
        rw [← h]
      · simp [signIn, he, hf, hpw] at h

theorem applyOp_ok_good {op : Op} {st st' : AuthState}
    (hg : goodAccounts st) (h : applyOp op st = Except.ok st') :
    goodAccounts st' := by
  cases op with
  | register e p =>
    by_cases he : e = ""
    · simp [applyOp, register, he] at h
    · by_cases hp : p = ""
      · simp [applyOp, register, he, hp] at h
      · cases hf : findAccount st e with
        | some a => simp [applyOp, register, he, hp, hf] at h
        | none =>
          simp [applyOp, register, he, hp, hf] at h
          subst h
          intro a ha
          rcases List.mem_cons.mp ha with rfl | ha
          · exact he
          · exact hg a ha
  | signIn e p =>
    by_cases he : e = ""
    · simp [applyOp, signIn, he] at h
    · cases hf : findAccount st e with
      | none => simp [applyOp, signIn, he, hf] at h
      | some a =>
        by_cases hpw : a.password = p
        · simp [applyOp, signIn, he, hf, hpw] at h
          subst h
          exact hg
        · simp [applyOp, signIn, he, hf, hpw] at h
  | signOut =>
    simp [applyOp, signOut] at h
    subst h
    exact hg
  | changePassword u np =>
    by_cases hnp : np = ""
    · simp [applyOp, changePassword, hnp] at h
    · cases hf : findAccount st u.email with
      | none => simp [applyOp, changePassword, hnp, hf] at h
      | some a =>
        simp [applyOp, changePassword, hnp, hf] at h
        subst h
        intro b hb
        rcases List.mem_map.mp hb with ⟨c, hc, rfl⟩
        have hce := hg c hc
        by_cases hcc : c.email = u.email
        · simpa [hcc] using hce
        · simpa [hcc] using hce
  | expire =>
    simp [applyOp, expireSession] at h
    subst h
    exact hg

theorem reachable_good {sys : SystemState} (h : Reachable sys) :
    goodAccounts sys.provider := by
  induction h with
  | init => intro a ha; cases ha
  | step op hr ih =>
    unfold stepSystem
    cases hop : applyOp op _ with
    | ok st' => exact applyOp_ok_good ih hop
    | error err => exact ih

theorem reachable_findAccount_email_ne {sys : SystemState} {e : String}
    {a : Account} (h : Reachable sys) (ha : findAccount sys.provider e = some a) :
    e ≠ "" := by
  have h1 := findAccount_email ha
  have h2 := reachable_good h a (findAccount_mem ha)
  exact h1 ▸ h2

end UseAuth

namespace UseAuth

/-- C1 (counterexample): the claim quantifies over every fresh email, but the
empty email is fresh in the initial state and registering it with the
non-empty password "password" throws `auth/missing-email` and leaves the
hook's user null instead of signing in. -/
theorem register_fresh_cex :
    findAccount initSystem.provider "" = none
    ∧ applyOp (Op.register "" "password") initSystem.provider
        = Except.error ⟨"auth/missing-email"⟩
    ∧ (stepSystem initSystem (Op.register "" "password")).hookUser = none :=
  ⟨rfl, rfl, rfl⟩

/-- C1 (amended): for every fresh non-empty email and non-empty password,
`register` succeeds, afterwards the hook's exposed user is non-null with the
registered email, and on a newly mounted hook with no session the user is
null. -/
theorem register_fresh_signs_in (sys : SystemState) (e p : String)
    (he : e ≠ "") (hp : p ≠ "") (hf : findAccount sys.provider e = none) :
    applyOp (Op.register e p) sys.provider
        = Except.ok ⟨⟨e, p⟩ :: sys.provider.accounts, some e⟩
    ∧ (stepSystem sys (Op.register e p)).hookUser = some ⟨e⟩
    ∧ initSystem.hookUser = none := by
  have h1 : register e p sys.provider
      = Except.ok ⟨⟨e, p⟩ :: sys.provider.accounts, some e⟩ := by
    simp [register, he, hp, hf]
  refine ⟨h1, ?_, rfl⟩
  simp [stepSystem, applyOp, h1, providerUser]

/-- C1 (witness): the amended registration claim at a concrete fresh email. -/
theorem register_fresh_signs_in_witness :
    applyOp (Op.register "fresh@example.com" "pw") initSystem.provider
        = Except.ok
            ⟨⟨"fresh@example.com", "pw"⟩ :: initSystem.provider.accounts,
              some "fresh@example.com"⟩
    ∧ (stepSystem initSystem (Op.register "fresh@example.com" "pw")).hookUser
        = some ⟨"fresh@example.com"⟩
    ∧ initSystem.hookUser = none :=
  register_fresh_signs_in initSystem "fresh@example.com" "pw"
    (by decide) (by decide) rfl

/-- C3: for every state of the hook, `signOut()` succeeds (clearing only the
session) and afterwards the hook's exposed user is null. -/
theorem signOut_always_resets (sys : SystemState) :
    applyOp Op.signOut sys.provider
        = Except.ok { sys.provider with current := none }
    ∧ (stepSystem sys Op.signOut).hookUser = none := by
  constructor
  · rfl
  · simp [stepSystem, applyOp, signOut, providerUser]

/-- C5: for every password and every reachable hook state, `register` and
`signIn` with an empty email throw `auth/missing-email` and the hook's user
is unchanged (in particular it remains null when it was null). -/
theorem empty_email_always_missing_email (sys : SystemState) (p : String)
    (h : Reachable sys) :
    applyOp (Op.register "" p) sys.provider = Except.error ⟨"auth/missing-email"⟩
    ∧ applyOp (Op.signIn "" p) sys.provider = Except.error ⟨"auth/missing-email"⟩
    ∧ (stepSystem sys (Op.register "" p)).hookUser = sys.hookUser
    ∧ (stepSystem sys (Op.signIn "" p)).hookUser = sys.hookUser := by
  have hm := reachable_mirror h
  have h1 : register "" p sys.provider = Except.error ⟨"auth/missing-email"⟩ := by
    simp [register]
  have h2 : signIn "" p sys.provider = Except.error ⟨"auth/missing-email"⟩ := by
    simp [signIn]
  refine ⟨h1, h2, ?_, ?_⟩
  · simp [stepSystem, applyOp, h1, hm]
  · simp [stepSystem, applyOp, h2, hm]

/-- C5 (witness): the empty-email claim at the initial hook state with the
concrete password "password". -/
theorem empty_email_always_missing_email_witness :
    applyOp (Op.register "" "password") initSystem.provider
        = Except.error ⟨"auth/missing-email"⟩
    ∧ applyOp (Op.signIn "" "password") initSystem.provider
        = Except.error ⟨"auth/missing-email"⟩
    ∧ (stepSystem initSystem (Op.register "" "password")).hookUser
        = initSystem.hookUser
    ∧ (stepSystem initSystem (Op.signIn "" "password")).hookUser
        = initSystem.hookUser :=
  empty_email_always_missing_email initSystem "password" Reachable.init

/-- C7: for every non-empty email and every hook state, `register` with an
empty password throws `auth/internal-error` and creates no account (the
provider state is unchanged). -/
theorem register_empty_password_fails (sys : SystemState) (e : String)
    (he : e ≠ "") :
    applyOp (Op.register e "") sys.provider = Except.error ⟨"auth/internal-error"⟩
    ∧ (stepSystem sys (Op.register e "")).provider = sys.provider := by
  have h1 : register e "" sys.provider = Except.error ⟨"auth/internal-error"⟩ := by
    simp [register, he]
  exact ⟨h1, by simp [stepSystem, applyOp, h1]⟩

/-- C7 (witness): the empty-password claim at a concrete non-empty email. -/
theorem register_empty_password_fails_witness :
    applyOp (Op.register "someone@example.com" "") initSystem.provider
        = Except.error ⟨"auth/internal-error"⟩
    ∧ (stepSystem initSystem (Op.register "someone@example.com" "")).provider
        = initSystem.provider :=
  register_empty_password_fails initSystem "someone@example.com" (by decide)

end UseAuth

namespace UseAuth

theorem stepSystem_ok {sys : SystemState} {op : Op} {st' : AuthState}
    (h : applyOp op sys.provider = Except.ok st') :
    stepSystem sys op = ⟨st', providerUser st'⟩ := by
  simp [stepSystem, h]

theorem demoSystem_reachable : Reachable demoSystem :=
  Reachable.step _ Reachable.init

/-- C2: on any reachable hook state with a registered account, `signIn` with
the account's password succeeds and the hook's user becomes that email, while
`signIn` with any other password throws `auth/wrong-password` and leaves the
hook's user unchanged (in particular signed-out when it was signed-out). -/
theorem signIn_correct_and_wrong_password (sys : SystemState) (e p : String)
    (a : Account) (h : Reachable sys)
    (ha : findAccount sys.provider e = some a) (hp : p ≠ a.password) :
    (applyOp (Op.signIn e a.password) sys.provider
        = Except.ok { sys.provider with current := some e }
      ∧ (stepSystem sys (Op.signIn e a.password)).hookUser = some ⟨e⟩)
    ∧ (applyOp (Op.signIn e p) sys.provider = Except.error ⟨"auth/wrong-password"⟩
      ∧ (stepSystem sys (Op.signIn e p)).hookUser = sys.hookUser) := by
  have he := reachable_findAccount_email_ne h ha
  have hm := reachable_mirror h
  have h1 : signIn e a.password sys.provider
      = Except.ok { sys.provider with current := some e } := by
    simp [signIn, he, ha]
  have hne : ¬ a.password = p := fun hh => hp hh.symm
  have h2 : signIn e p sys.provider = Except.error ⟨"auth/wrong-password"⟩ := by
    simp [signIn, he, ha, hne]
  refine ⟨⟨h1, ?_⟩, h2, ?_⟩
  · simp [stepSystem, applyOp, h1, providerUser]
  · simp [stepSystem, applyOp, h2, hm]

/-- C2 (witness): the sign-in claim on the concrete reachable state holding
the account `user@example.com` / `pw1`, with wrong password "bad-password". -/
theorem signIn_correct_and_wrong_password_witness :
    (applyOp (Op.signIn "user@example.com" "pw1") demoSystem.provider
        = Except.ok { demoSystem.provider with current := some "user@example.com" }
      ∧ (stepSystem demoSystem (Op.signIn "user@example.com" "pw1")).hookUser
        = some ⟨"user@example.com"⟩)
    ∧ (applyOp (Op.signIn "user@example.com" "bad-password") demoSystem.provider
        = Except.error ⟨"auth/wrong-password"⟩
      ∧ (stepSystem demoSystem (Op.signIn "user@example.com" "bad-password")).hookUser
        = demoSystem.hookUser) :=
  signIn_correct_and_wrong_password demoSystem "user@example.com" "bad-password"
    ⟨"user@example.com", "pw1"⟩ demoSystem_reachable (by decide) (by decide)

/-- C4: on every reachable hook state the hook's user mirrors the provider's
session: it is null exactly when the provider is signed out, becomes non-null
after any successful `register` or `signIn`, and is null after `signOut` or a
provider-signaled session expiry. -/
theorem auth_state_mirrors_provider (sys : SystemState) (e1 p1 e2 p2 : String)
    (st1 st2 : AuthState) (h : Reachable sys)
    (hr : applyOp (Op.register e1 p1) sys.provider = Except.ok st1)
    (hs : applyOp (Op.signIn e2 p2) sys.provider = Except.ok st2) :
    sys.hookUser = providerUser sys.provider
    ∧ (sys.hookUser = none ↔ sys.provider.current = none)
    ∧ (stepSystem sys (Op.register e1 p1)).hookUser ≠ none
    ∧ (stepSystem sys (Op.signIn e2 p2)).hookUser ≠ none
    ∧ (stepSystem sys Op.signOut).hookUser = none
    ∧ (stepSystem sys Op.expire).hookUser = none := by
  have hm := reachable_mirror h
  refine ⟨hm, ?_, ?_, ?_, ?_, ?_⟩
  · rw [hm]; exact providerUser_eq_none
  · have hc : st1.current = some e1 := register_ok_current hr
    simp [stepSystem, hr, providerUser, hc]
  · have hc : st2.current = some e2 := signIn_ok_current hs
    simp [stepSystem, hs, providerUser, hc]
  · simp [stepSystem, applyOp, signOut, providerUser]
  · simp [stepSystem, applyOp, expireSession, providerUser]

/-- C4 (witness): the mirror invariant on the concrete reachable state, with
a fresh registration and a correct sign-in both available. -/
theorem auth_state_mirrors_provider_witness :
    demoSystem.hookUser = providerUser demoSystem.provider
    ∧ (demoSystem.hookUser = none ↔ demoSystem.provider.current = none)
    ∧ (stepSystem demoSystem (Op.register "fresh@example.com" "pw")).hookUser ≠ none
    ∧ (stepSystem demoSystem (Op.signIn "user@example.com" "pw1")).hookUser ≠ none
    ∧ (stepSystem demoSystem Op.signOut).hookUser = none
    ∧ (stepSystem demoSystem Op.expire).hookUser = none :=
  auth_state_mirrors_provider demoSystem "fresh@example.com" "pw"
    "user@example.com" "pw1"
    ⟨⟨"fresh@example.com", "pw"⟩ :: demoSystem.provider.accounts, some "fresh@example.com"⟩
    { demoSystem.provider with current := some "user@example.com" }
    demoSystem_reachable rfl rfl

/-- C6 (counterexample): the claim quantifies over every password, but on the
reachable state holding the account `user@example.com`, re-registering that
email with the empty password throws `auth/internal-error`, not
`auth/email-already-in-use`. -/
theorem register_duplicate_cex :
    Reachable demoSystem
    ∧ (findAccount demoSystem.provider "user@example.com").isSome = true
    ∧ applyOp (Op.register "user@example.com" "") demoSystem.provider
        = Except.error ⟨"auth/internal-error"⟩ :=
  ⟨demoSystem_reachable, rfl, rfl⟩

/-- C6 (amended): on any reachable hook state, registering an already
registered email with any non-empty password throws
`auth/email-already-in-use` and leaves the provider's accounts and the hook's
state unchanged. -/
theorem register_duplicate_fails (sys : SystemState) (e p : String) (a : Account)
    (h : Reachable sys) (ha : findAccount sys.provider e = some a) (hp : p ≠ "") :
    applyOp (Op.register e p) sys.provider
        = Except.error ⟨"auth/email-already-in-use"⟩
    ∧ (stepSystem sys (Op.register e p)).provider = sys.provider
    ∧ (stepSystem sys (Op.register e p)).hookUser = sys.hookUser := by
  have he := reachable_findAccount_email_ne h ha
  have hm := reachable_mirror h
  have h1 : register e p sys.provider = Except.error ⟨"auth/email-already-in-use"⟩ := by
    simp [register, he, hp, ha]
  refine ⟨h1, ?_, ?_⟩
  · simp [stepSystem, applyOp, h1]
  · simp [stepSystem, applyOp, h1, hm]

/-- C6 (witness): the amended duplicate-registration claim at the concrete
registered email with a concrete non-empty password. -/
theorem register_duplicate_fails_witness :
    applyOp (Op.register "user@example.com" "other-pw") demoSystem.provider
        = Except.error ⟨"auth/email-already-in-use"⟩
    ∧ (stepSystem demoSystem (Op.register "user@example.com" "other-pw")).provider
        = demoSystem.provider
    ∧ (stepSystem demoSystem (Op.register "user@example.com" "other-pw")).hookUser
        = demoSystem.hookUser :=
  register_duplicate_fails demoSystem "user@example.com" "other-pw"
    ⟨"user@example.com", "pw1"⟩ demoSystem_reachable (by decide) (by decide)

end UseAuth

namespace UseAuth

/-- C8: for every reachable, signed-in hook state and every non-empty new
password, the sequence `changePassword; signOut; signIn` with the new password
succeeds at each step and afterwards the hook's user is non-null with the same
email as before the sequence. -/
theorem changePassword_roundtrip (sys : SystemState) (e np : String) (a : Account)
    (h : Reachable sys) (hc : sys.provider.current = some e)
    (ha : findAccount sys.provider e = some a) (hnp : np ≠ "") :
    (applyOp (Op.changePassword ⟨e⟩ np) sys.provider).isOk = true
    ∧ (applyOp Op.signOut
        (stepSystem sys (Op.changePassword ⟨e⟩ np)).provider).isOk = true
    ∧ (applyOp (Op.signIn e np)
        (stepSystem (stepSystem sys (Op.changePassword ⟨e⟩ np))
          Op.signOut).provider).isOk = true
    ∧ (stepSystem
        (stepSystem (stepSystem sys (Op.changePassword ⟨e⟩ np)) Op.signOut)
        (Op.signIn e np)).hookUser = some ⟨e⟩
    ∧ sys.hookUser = some ⟨e⟩ := by
  have he := reachable_findAccount_email_ne h ha
  have hm := reachable_mirror h
  set X := sys.provider.accounts.map
    (fun b => if b.email == e then Account.mk b.email np else b) with hX
  have h1 : applyOp (Op.changePassword ⟨e⟩ np) sys.provider
      = Except.ok (AuthState.mk X sys.provider.current) := by
    rw [hX]
    simp [applyOp, changePassword, hnp, ha]
  have s1 : stepSystem sys (Op.changePassword ⟨e⟩ np)
      = ⟨AuthState.mk X sys.provider.current,
        providerUser (AuthState.mk X sys.provider.current)⟩ :=
    stepSystem_ok h1
  have s2 : stepSystem
      (⟨AuthState.mk X sys.provider.current,
        providerUser (AuthState.mk X sys.provider.current)⟩ : SystemState)
      Op.signOut
      = ⟨AuthState.mk X none, none⟩ :=
    stepSystem_ok rfl
  have hfaX : findAccount (AuthState.mk X none) e = some (Account.mk a.email np) := by
    rw [hX]
    unfold findAccount
    rw [show (AuthState.mk
        (sys.provider.accounts.map
          (fun b => if b.email == e then Account.mk b.email np else b)) none).accounts
      = sys.provider.accounts.map
          (fun b => if b.email == e then Account.mk b.email np else b) from rfl]
    rw [find_update]
    rw [show List.find? (fun b => b.email == e) sys.provider.accounts = some a from ha]
    rfl
  have h3 : applyOp (Op.signIn e np) (AuthState.mk X none)
      = Except.ok (AuthState.mk X (some e)) := by
    simp [applyOp, signIn, he, hfaX]
  have s3 : stepSystem (⟨AuthState.mk X none, none⟩ : SystemState) (Op.signIn e np)
      = ⟨AuthState.mk X (some e), providerUser (AuthState.mk X (some e))⟩ :=
    stepSystem_ok h3
  refine ⟨?_, ?_, ?_, ?_, ?_⟩
  · rw [h1]; rfl
  · rfl
  · rw [s1, s2]
    show (applyOp (Op.signIn e np) (AuthState.mk X none)).isOk = true
    rw [h3]; rfl
  · rw [s1, s2]
    show (stepSystem (⟨AuthState.mk X none, none⟩ : SystemState)
      (Op.signIn e np)).hookUser = some ⟨e⟩
    rw [s3]; rfl
  · rw [hm]
    simp [providerUser, hc]

/-- C8 (witness): the password-change round trip on the concrete reachable
signed-in state for `user@example.com`, with new password "pw2". -/
theorem changePassword_roundtrip_witness :
    (applyOp (Op.changePassword ⟨"user@example.com"⟩ "pw2")
        demoSystem.provider).isOk = true
    ∧ (applyOp Op.signOut
        (stepSystem demoSystem
          (Op.changePassword ⟨"user@example.com"⟩ "pw2")).provider).isOk = true
    ∧ (applyOp (Op.signIn "user@example.com" "pw2")
        (stepSystem
          (stepSystem demoSystem (Op.changePassword ⟨"user@example.com"⟩ "pw2"))
          Op.signOut).provider).isOk = true
    ∧ (stepSystem
        (stepSystem
          (stepSystem demoSystem (Op.changePassword ⟨"user@example.com"⟩ "pw2"))
          Op.signOut)
        (Op.signIn "user@example.com" "pw2")).hookUser = some ⟨"user@example.com"⟩
    ∧ demoSystem.hookUser = some ⟨"user@example.com"⟩ :=
  changePassword_roundtrip demoSystem "user@example.com" "pw2"
    ⟨"user@example.com", "pw1"⟩ demoSystem_reachable (by decide) (by decide)
    (by decide)

end UseAuth

namespace FirebaseConfig

/-- C9: at bootstrap the auth client is redirected to the local emulator
endpoint exactly when `withAuthEmulator` holds, which holds exactly when the
environment flag is defined and, lowercased, equals the exact string "true";
otherwise the client stays on production (no emulator endpoint). -/
theorem emulator_toggle (env : Option String) :
    (withAuthEmulator env = true ↔ ∃ s, env = some s ∧ s.toLower = "true")
    ∧ (authEmulatorEndpoint env = some "http://localhost:9099"
        ↔ withAuthEmulator env = true)
    ∧ (authEmulatorEndpoint env = none ↔ withAuthEmulator env = false) := by
  refine ⟨?_, ?_, ?_⟩
  · cases env with
    | none => simp [withAuthEmulator]
    | some s => simp [withAuthEmulator]
  · cases hw : withAuthEmulator env <;> simp [authEmulatorEndpoint, hw]
  · cases hw : withAuthEmulator env <;> simp [authEmulatorEndpoint, hw]

end FirebaseConfig

namespace TestHarness

/-- C10: `clearAllUsers` throws (issuing no HTTP request) when
`REACT_APP_PROJECT_ID` is unset or empty, and otherwise issues exactly one
DELETE to the emulator's accounts endpoint for that project. -/
theorem clearAllUsers_requires_project_id (pid : String) (hp : pid ≠ "") :
    clearAllUsers none
        = Except.error "env var REACT_APP_PROJECT_ID not found in test"
    ∧ clearAllUsers (some "")
        = Except.error "env var REACT_APP_PROJECT_ID not found in test"
    ∧ clearAllUsers (some pid)
        = Except.ok
            [⟨"http://localhost:9099/emulator/v1/projects/" ++ pid ++ "/accounts",
              "DELETE"⟩] := by
  refine ⟨rfl, rfl, ?_⟩
  simp [clearAllUsers, hp]

/-- C10 (witness): the harness claim at the concrete project id
"demo-project". -/
theorem clearAllUsers_requires_project_id_witness :
    clearAllUsers none
        = Except.error "env var REACT_APP_PROJECT_ID not found in test"
    ∧ clearAllUsers (some "")
        = Except.error "env var REACT_APP_PROJECT_ID not found in test"
    ∧ clearAllUsers (some "demo-project")
        = Except.ok
            [⟨"http://localhost:9099/emulator/v1/projects/"
                ++ "demo-project" ++ "/accounts",
              "DELETE"⟩] :=
  clearAllUsers_requires_project_id "demo-project" (by decide)

end TestHarness
